import Mathlib

/-!
Shallow embedding of the rank-bert repository, covering
src/rank_bert/data/load_data.py (GLUEDataManager) and
src/rank_bert/models/base_models.py (GLUE_NUM_LABELS, BERT_CONFIGS,
get_pretrained_model, BertWrapper).  Machine integers are Nat/Int, Python
dicts are association lists, Python exceptions are Except/sum results, and
Python truthiness (the `or` idiom) is made explicit where the source uses it.
-/

/-- One raw GLUE example: a record of named string fields plus an integer
label.  RawExample.get models the Python item[field] lookup; none stands for
a KeyError on a missing field. -/
structure RawExample where
  fields : List (String × String)
  label : Int
deriving DecidableEq, Repr

def RawExample.get (e : RawExample) (k : String) : Option String :=
  e.fields.lookup k

/-- A DatasetDict: the dictionary of named splits returned by the datasets
library (keys such as train, validation, test). -/
structure DatasetDict where
  splits : List (String × List RawExample)
deriving DecidableEq, Repr

def DatasetDict.get (dd : DatasetDict) (k : String) : Option (List RawExample) :=
  dd.splits.lookup k

/-- A text entry extracted from one example: the bare string for a
single-field task, the ordered two-element tuple for a two-field task. -/
inductive TextEntry where
  | single (s : String)
  | pair (s1 s2 : String)
deriving DecidableEq, Repr

/-- The self.text_fields dictionary literal from GLUEDataManager.__init__:
first text field name and optional second text field name per task. -/
def text_fields : List (String × (String × Option String)) :=
  [("sst2", ("sentence", none)),
   ("mrpc", ("sentence1", some "sentence2")),
   ("rte", ("sentence1", some "sentence2"))]

/-- The self.num_labels dictionary literal from GLUEDataManager.__init__. -/
def num_labels_tbl : List (String × Nat) :=
  [("sst2", 2), ("mrpc", 2), ("rte", 2)]

/-- Python exceptions raised (or propagated) by the data manager. -/
inductive GlueError where
  | unsupportedTask (task : String)
  | precedence
  | noTestData
  | attrError
  | keyError
deriving DecidableEq, Repr

/-- Parameters of the TokBatchTransform constructed in create_dataloaders
(the fitted tokenization pipeline of the training DataLoaders). -/
structure TokParams where
  pretrained_model_name : String
  max_length : Nat
  padding : String
  truncation : Bool
deriving DecidableEq, Repr

/-- The training/validation DataLoaders object built by create_dataloaders:
the concatenated frame, the IndexSplitter boundary, the fitted tokenization
pipeline and the batch sizes. -/
structure DLS where
  allTexts : List TextEntry
  allLabels : List Int
  nTrain : Nat
  nVal : Nat
  tok : TokParams
  bs : Nat
  val_bs : Nat
deriving DecidableEq, Repr

/-- The GLUEDataManager session state.  datasets and dls are none until
load_datasets and create_dataloaders have respectively stored them. -/
structure GLUEDataManager where
  task_name : String
  model_name : String
  max_length : Nat
  bs : Nat
  val_bs : Nat
  cache_dir : Option String
  datasets : Option DatasetDict
  dls : Option DLS
deriving DecidableEq, Repr

/-- Python str.lower on one character, restricted to the ASCII range that
the task-name strings live in. -/
def lowerChar (c : Char) : Char :=
  if c.isUpper then Char.ofNat (c.toNat + 32) else c

/-- Python str.lower as applied to task names (ASCII range). -/
def lowerStr (s : String) : String :=
  ⟨s.data.map lowerChar⟩

/-- GLUEDataManager.__init__: lowercases the task name, rejects any task
outside sst2, mrpc, rte with a ValueError, and resolves val_bs with the
Python truthiness idiom val_bs or 2*bs (0 and None both fall back).  The
tokenizer resolution is external and carries no state used by the claims. -/
def GLUEDataManager.init (task_name model_name : String) (max_length bs : Nat)
    (val_bs : Option Nat) (cache_dir : Option String) :
    Except GlueError GLUEDataManager :=
  let tl := lowerStr task_name
  if tl ∈ ["sst2", "mrpc", "rte"] then
    Except.ok
      { task_name := tl
        model_name := model_name
        max_length := max_length
        bs := bs
        val_bs := match val_bs with
          | some v => if v ≠ 0 then v else 2 * bs
          | none => 2 * bs
        cache_dir := cache_dir
        datasets := none
        dls := none }
  else
    Except.error (GlueError.unsupportedTask tl)

/-- The body of the max_samples loop in load_datasets: a split whose key
is test is left untouched, any other split is replaced by select over
range of min max_samples length, i.e. its prefix of that many examples. -/
def truncEntry (n : Nat) (p : String × List RawExample) :
    String × List RawExample :=
  if p.1 = "test" then p else (p.1, p.2.take (min n p.2.length))

/-- The max_samples truncation of load_datasets over every split. -/
def truncateSplits (dd : DatasetDict) (max_samples : Option Nat) : DatasetDict :=
  match max_samples with
  | none => dd
  | some n => ⟨dd.splits.map (truncEntry n)⟩

/-- Result of one load_datasets call.  customAfter is the value held by the
object the caller passed as custom_datasets once the call returns (none when
no custom_datasets was supplied). -/
structure LoadOutcome where
  mgr : GLUEDataManager
  returned : DatasetDict
  customAfter : Option DatasetDict
deriving DecidableEq, Repr

/-- The datasets the truncation loop runs over: the supplied
custom_datasets if any, the externally fetched splits otherwise. -/
def pickBase (custom_datasets : Option DatasetDict) (fetched : DatasetDict) :
    DatasetDict :=
  match custom_datasets with
  | some d => d
  | none => fetched

/-- GLUEDataManager.load_datasets.  fetched stands for the external
load_dataset result used when custom_datasets is absent.  The source binds
datasets to the very object passed as custom_datasets and the truncation
loop assigns split entries into that object, so after the call the callers
variable holds the truncated dictionary: customAfter records this aliasing
(no copy of custom_datasets is taken before truncation). -/
def GLUEDataManager.load_datasets (m : GLUEDataManager)
    (custom_datasets : Option DatasetDict) (fetched : DatasetDict)
    (max_samples : Option Nat) : LoadOutcome :=
  let d := truncateSplits (pickBase custom_datasets fetched) max_samples
  { mgr := { m with datasets := some d }
    returned := d
    customAfter := custom_datasets.map (fun _ => d) }

/-- The per-item text extraction repeated in the train and validation loops
of _prepare_fastai_data and in the test loop of create_test_dataloader: a
two-element tuple when text_field2 is not None, the bare first field
otherwise.  none models a KeyError on a missing field. -/
def extractText (tf : String × Option String) (item : RawExample) :
    Option TextEntry :=
  match tf.2 with
  | some f2 =>
    match item.get tf.1, item.get f2 with
    | some v1, some v2 => some (TextEntry.pair v1 v2)
    | _, _ => none
  | none => (item.get tf.1).map TextEntry.single

/-- The per-split extraction loop (for item in split: append the extracted
text), propagating a KeyError on any item as none. -/
def extractAll (tf : String × Option String) :
    List RawExample → Option (List TextEntry)
  | [] => some []
  | item :: rest =>
    match extractText tf item, extractAll tf rest with
    | some e, some es => some (e :: es)
    | _, _ => none

/-- GLUEDataManager._prepare_fastai_data: extracts texts and labels for the
train and validation splits according to the active task descriptor.  none
models the uncaught KeyError paths (missing split or missing field). -/
def GLUEDataManager.prepare_fastai_data (m : GLUEDataManager)
    (dd : DatasetDict) :
    Option (List TextEntry × List Int × List TextEntry × List Int) := do
  let tf ← text_fields.lookup m.task_name
  let train ← dd.get "train"
  let val ← dd.get "validation"
  let train_texts ← extractAll tf train
  let train_labels := train.map RawExample.label
  let val_texts ← extractAll tf val
  let val_labels := val.map RawExample.label
  some (train_texts, train_labels, val_texts, val_labels)

/-- GLUEDataManager.create_dataloaders: loads datasets when none are stored
or fresh custom_datasets are supplied, prepares the fastai frame (train
concatenated with validation, split back by an index range whose upper end
uses the validation label count, as in the source) and stores the built
DataLoaders with their freshly fitted tokenization pipeline. -/
def GLUEDataManager.create_dataloaders (m : GLUEDataManager)
    (custom_datasets : Option DatasetDict) (fetched : DatasetDict)
    (max_samples : Option Nat) : Option (GLUEDataManager × DLS) := do
  let m := if m.datasets.isNone || custom_datasets.isSome then
      (m.load_datasets custom_datasets fetched max_samples).mgr
    else m
  let dd ← m.datasets
  let (train_texts, train_labels, val_texts, val_labels) ←
    m.prepare_fastai_data dd
  let dls : DLS :=
    { allTexts := train_texts ++ val_texts
      allLabels := train_labels ++ val_labels
      nTrain := train_texts.length
      nVal := val_labels.length
      tok := { pretrained_model_name := m.model_name
               max_length := m.max_length
               padding := "max_length"
               truncation := true }
      bs := m.bs
      val_bs := m.val_bs }
  some ({ m with dls := some dls }, dls)

/-- The expression test_data or self.datasets.get(test) followed by the
None check in create_test_dataloader.  Python or short-circuits: a truthy
(nonempty) argument is returned at once; a falsy argument (None or an empty
collection) makes the call fall back to the loaded test split, and the
ValueError fires only when that final value is None. -/
def resolveTestData (m : GLUEDataManager)
    (test_data : Option (List RawExample)) :
    Except GlueError (List RawExample) :=
  match test_data with
  | some l =>
    if l.isEmpty then
      match m.datasets with
      | none => Except.error GlueError.attrError
      | some dd =>
        match dd.get "test" with
        | none => Except.error GlueError.noTestData
        | some t => Except.ok t
    else Except.ok l
  | none =>
    match m.datasets with
    | none => Except.error GlueError.attrError
    | some dd =>
      match dd.get "test" with
      | none => Except.error GlueError.noTestData
      | some t => Except.ok t

/-- The test DataLoader: the pipeline it was produced from (self.dls in the
source, via self.dls.test_dl) and the rows of the constructed test frame. -/
structure TestDL where
  pipeline : DLS
  texts : List TextEntry
  labels : List Int
deriving DecidableEq, Repr

/-- Result of create_test_dataloader.  precedence is the ValueError for a
missing self.dls, noTestData the ValueError for absent test data, pyError
the remaining uncaught Python error paths (AttributeError, KeyError). -/
inductive TestDLResult where
  | precedence
  | noTestData
  | pyError
  | ok (dl : TestDL)
deriving DecidableEq, Repr

/-- GLUEDataManager.create_test_dataloader: checks that the training
DataLoaders exist, resolves the test data with Python or-truthiness, builds
text tuples exactly as training does, labels every row 0 and produces the
test stream from the already stored self.dls pipeline. -/
def GLUEDataManager.create_test_dataloader (m : GLUEDataManager)
    (test_data : Option (List RawExample)) : TestDLResult :=
  match m.dls with
  | none => TestDLResult.precedence
  | some dls =>
    match resolveTestData m test_data with
    | Except.error GlueError.noTestData => TestDLResult.noTestData
    | Except.error _ => TestDLResult.pyError
    | Except.ok data =>
      match text_fields.lookup m.task_name with
      | none => TestDLResult.pyError
      | some tf =>
        match extractAll tf data with
        | none => TestDLResult.pyError
        | some test_texts =>
          TestDLResult.ok
            { pipeline := dls
              texts := test_texts
              labels := List.replicate test_texts.length 0 }

/-! Model side: src/rank_bert/models/base_models.py. -/

/-- The GLUE_NUM_LABELS dictionary literal. -/
def GLUE_NUM_LABELS : List (String × Nat) :=
  [("sst2", 2), ("mrpc", 2), ("rte", 2)]

/-- One entry of BERT_CONFIGS: the explicit compact architecture shape. -/
structure BertHyper where
  hidden_size : Nat
  num_hidden_layers : Nat
  num_attention_heads : Nat
  intermediate_size : Nat
deriving DecidableEq, Repr

/-- The BERT_CONFIGS dictionary literal. -/
def BERT_CONFIGS : List (String × BertHyper) :=
  [("prajjwal1/bert-tiny", ⟨128, 2, 2, 512⟩),
   ("prajjwal1/bert-mini", ⟨256, 4, 4, 1024⟩),
   ("prajjwal1/bert-small", ⟨512, 4, 8, 2048⟩)]

/-- The BertConfig built in the compact branch of get_pretrained_model:
the table shape plus num_labels and the two dropout probabilities. -/
structure BertConfig where
  hidden_size : Nat
  num_hidden_layers : Nat
  num_attention_heads : Nat
  intermediate_size : Nat
  num_labels : Nat
  hidden_dropout_prob : ℚ
  attention_probs_dropout_prob : ℚ
deriving DecidableEq, Repr

/-- The model returned by get_pretrained_model: either a freshly constructed
BertForSequenceClassification over an explicit config, or the request to the
external pretrained hub with the resolved label count. -/
inductive ModelHandle where
  | fresh (config : BertConfig)
  | pretrainedFetch (model_name : String) (num_labels : Nat)
deriving DecidableEq, Repr

def ModelHandle.numLabels : ModelHandle → Nat
  | ModelHandle.fresh c => c.num_labels
  | ModelHandle.pretrainedFetch _ n => n

/-- get_pretrained_model.  num_labels resolves with Python truthiness
(num_labels or GLUE_NUM_LABELS.get(task_name, 2)); the model name is looked
up in BERT_CONFIGS and falls back to the external pretrained fetch.  The
function itself never raises for any task name. -/
def get_pretrained_model (model_name task_name : String)
    (num_labels : Option Nat) : ModelHandle :=
  let nl : Nat := match num_labels with
    | some n => if n ≠ 0 then n else (GLUE_NUM_LABELS.lookup task_name).getD 2
    | none => (GLUE_NUM_LABELS.lookup task_name).getD 2
  match BERT_CONFIGS.lookup model_name with
  | some h =>
    ModelHandle.fresh
      { hidden_size := h.hidden_size
        num_hidden_layers := h.num_hidden_layers
        num_attention_heads := h.num_attention_heads
        intermediate_size := h.intermediate_size
        num_labels := nl
        hidden_dropout_prob := 1/10
        attention_probs_dropout_prob := 1/10 }
  | none => ModelHandle.pretrainedFetch model_name nl

/-- A tensor, abstracted to its shape (only shapes matter to the wrapper). -/
structure Tensor where
  shape : List Nat
deriving DecidableEq, Repr

/-- The output object of the underlying sequence-classification model:
logits plus the other fields the wrapper discards. -/
structure ModelOutput where
  logits : Tensor
  hidden_states : Option Tensor
  attentions : Option Tensor
  loss : Option Tensor

/-- The dictionary of named tensors a batch carries. -/
structure BatchDict where
  input_ids : Tensor
  attention_mask : Tensor
  token_type_ids : Option Tensor

/-- The argument shape BertWrapper.forward accepts: the dictionary itself,
or a one-element tuple whose first element is that dictionary. -/
inductive BatchInput where
  | dict (d : BatchDict)
  | tup (d : BatchDict)

def BatchInput.toDict : BatchInput → BatchDict
  | BatchInput.dict d => d
  | BatchInput.tup d => d

/-- The underlying model as a function of input_ids, attention_mask and an
optional token_type_ids, as invoked by BertWrapper.forward. -/
structure BertModelFn where
  run : Tensor → Tensor → Option Tensor → ModelOutput

/-- BertWrapper: holds the wrapped model. -/
structure BertWrapper where
  model : BertModelFn

/-- BertWrapper.forward: unwraps a tuple input to its first element,
extracts input_ids and attention_mask, invokes the model with
token_type_ids only when that key is present, and returns outputs.logits
alone. -/
def BertWrapper.forward (w : BertWrapper) (x : BatchInput) : Tensor :=
  let d := match x with
    | BatchInput.tup d => d
    | BatchInput.dict d => d
  let input_ids := d.input_ids
  let attention_mask := d.attention_mask
  let token_type_ids := d.token_type_ids
  match token_type_ids with
  | some tti => (w.model.run input_ids attention_mask (some tti)).logits
  | none => (w.model.run input_ids attention_mask none).logits

/-! Concrete fixtures used to instantiate the claim theorems. -/

/-- A concrete underlying model whose logits always have last dimension 2. -/
def demoModel : BertModelFn :=
  ⟨fun _ _ _ => ⟨⟨[4, 2]⟩, none, none, none⟩⟩

/-- A concrete single-field example. -/
def itemA : RawExample := ⟨[("sentence", "good movie")], 1⟩

/-- A second concrete single-field example. -/
def itemB : RawExample := ⟨[("sentence", "bad movie")], 0⟩

/-- The mrpc example of the end-to-end scenario. -/
def mrpcItem : RawExample :=
  ⟨[("sentence1", "A man is playing guitar."),
    ("sentence2", "A person plays a guitar.")], 1⟩

/-- A fresh sst2 manager, as produced by init. -/
def mgrBase : GLUEDataManager :=
  ⟨"sst2", "m", 512, 32, 64, none, none, none⟩

/-- A concrete dataset dictionary with train, validation and test. -/
def ddBig : DatasetDict :=
  ⟨[("train", [itemA, itemB]), ("validation", [itemA]),
    ("test", [itemA, itemB])]⟩

/-- The DataLoaders create_dataloaders builds from mgrBase over ddBig. -/
def dls2C : DLS :=
  ⟨[TextEntry.single "good movie", TextEntry.single "bad movie",
    TextEntry.single "good movie"], [1, 0, 1], 2, 1,
   ⟨"m", 512, "max_length", true⟩, 32, 64⟩

/-- The manager state returned by that create_dataloaders call. -/
def m2C : GLUEDataManager :=
  ⟨"sst2", "m", 512, 32, 64, none, some ddBig, some dls2C⟩

/-- The test DataLoader built by m2C.create_test_dataloader none. -/
def dlTestC : TestDL :=
  ⟨dls2C, [TextEntry.single "good movie", TextEntry.single "bad movie"],
   [0, 0]⟩

/-- A manager whose loaded datasets hold a present but empty test split. -/
def mgr10 : GLUEDataManager :=
  ⟨"mrpc", "m", 512, 32, 64, none, some ⟨[("test", [])]⟩, some dls2C⟩

/-! Theorems for the claims. -/

/-- Claim C5: initialization treats the task name case-insensitively and
fails with UnsupportedTaskError exactly when the lowercase form is outside
sst2, mrpc, rte; for the three supported names in any letter case it
accepts the task and the task descriptor tables give its text-field arity
and label count. -/
theorem c5_init_task_resolution (t mn : String) (ml bs : Nat)
    (vb : Option Nat) (cd : Option String) :
    ((∃ m, GLUEDataManager.init t mn ml bs vb cd = Except.ok m) ↔
       lowerStr t ∈ ["sst2", "mrpc", "rte"])
    ∧ (lowerStr t ∉ ["sst2", "mrpc", "rte"] →
       GLUEDataManager.init t mn ml bs vb cd =
         Except.error (GlueError.unsupportedTask (lowerStr t)))
    ∧ (∀ m, GLUEDataManager.init t mn ml bs vb cd = Except.ok m →
        m.task_name = lowerStr t
        ∧ text_fields.lookup m.task_name =
            some (if m.task_name = "sst2" then ("sentence", none)
                  else ("sentence1", some "sentence2"))
        ∧ num_labels_tbl.lookup m.task_name = some 2) := by
  refine ⟨⟨?_, ?_⟩, ?_, ?_⟩
  · rintro ⟨m, hm⟩
    by_contra h
    simp [GLUEDataManager.init, h] at hm
  · intro h
    refine ⟨{ task_name := lowerStr t, model_name := mn, max_length := ml,
              bs := bs,
              val_bs := match vb with
                | some v => if v ≠ 0 then v else 2 * bs
                | none => 2 * bs,
              cache_dir := cd, datasets := none, dls := none }, ?_⟩
    simp [GLUEDataManager.init, h]
  · intro h
    simp [GLUEDataManager.init, h]
  · intro m hm
    by_cases h : lowerStr t ∈ ["sst2", "mrpc", "rte"]
    · simp [GLUEDataManager.init, h] at hm
      subst hm
      refine ⟨rfl, ?_⟩
      simp only [List.mem_cons, List.mem_singleton, List.not_mem_nil,
        or_false] at h
      rcases h with h | h | h <;>
        simp [h, text_fields, num_labels_tbl, List.lookup]
    · simp [GLUEDataManager.init, h] at hm

/-- Claim C5 witness: MRPC in upper case is accepted, an unknown task is
rejected with UnsupportedTaskError. -/
theorem c5_witness :
    (∃ m, GLUEDataManager.init "MRPC" "bert-base" 512 32 none none =
       Except.ok m)
    ∧ GLUEDataManager.init "xnli" "bert-base" 512 32 none none =
       Except.error (GlueError.unsupportedTask (lowerStr "xnli")) :=
  ⟨(c5_init_task_resolution "MRPC" "bert-base" 512 32 none none).1.mpr
     (by decide),
   (c5_init_task_resolution "xnli" "bert-base" 512 32 none none).2.1
     (by decide)⟩

/-- Claim C6: when num_labels is not supplied, get_pretrained_model takes
the label count from the GLUE_NUM_LABELS lookup, falling back to 2 for a
task outside that lookup, and it never fails on its own for any task name:
the result is always a fresh compact model or a pretrained fetch. -/
theorem c6_num_labels_default (mn t : String) :
    (GLUE_NUM_LABELS.lookup t = none →
       (get_pretrained_model mn t none).numLabels = 2)
    ∧ (∀ k, GLUE_NUM_LABELS.lookup t = some k →
       (get_pretrained_model mn t none).numLabels = k)
    ∧ ((∃ c, get_pretrained_model mn t none = ModelHandle.fresh c)
       ∨ (∃ n, get_pretrained_model mn t none =
            ModelHandle.pretrainedFetch mn n)) := by
  refine ⟨?_, ?_, ?_⟩
  · intro hL
    cases hB : BERT_CONFIGS.lookup mn <;>
      simp [get_pretrained_model, ModelHandle.numLabels, hL, hB]
  · intro k hL
    cases hB : BERT_CONFIGS.lookup mn <;>
      simp [get_pretrained_model, ModelHandle.numLabels, hL, hB]
  · cases hB : BERT_CONFIGS.lookup mn with
    | none =>
      exact Or.inr ⟨(GLUE_NUM_LABELS.lookup t).getD 2,
        by simp [get_pretrained_model, hB]⟩
    | some v =>
      exact Or.inl ⟨⟨v.hidden_size, v.num_hidden_layers,
        v.num_attention_heads, v.intermediate_size,
        (GLUE_NUM_LABELS.lookup t).getD 2, 1/10, 1/10⟩,
        by simp [get_pretrained_model, hB]⟩

/-- Claim C6 witness: for the unknown task cola with no num_labels the
resolved label count is 2. -/
theorem c6_witness :
    (get_pretrained_model "bert-base-uncased" "cola" none).numLabels = 2 :=
  (c6_num_labels_default "bert-base-uncased" "cola").1 (by decide)

/-- Claim C7: each key of BERT_CONFIGS yields a freshly constructed model
whose config carries exactly that entry's hidden size, layer count, head
count and intermediate size, dropout 1/10 on both paths and the given
num_labels; every other model name takes the pretrained-fetch branch with
that num_labels. -/
theorem c7_compact_configs (t : String) (nl : Nat) (hnl : nl ≠ 0) :
    get_pretrained_model "prajjwal1/bert-tiny" t (some nl) =
      ModelHandle.fresh ⟨128, 2, 2, 512, nl, 1/10, 1/10⟩
    ∧ get_pretrained_model "prajjwal1/bert-mini" t (some nl) =
      ModelHandle.fresh ⟨256, 4, 4, 1024, nl, 1/10, 1/10⟩
    ∧ get_pretrained_model "prajjwal1/bert-small" t (some nl) =
      ModelHandle.fresh ⟨512, 4, 8, 2048, nl, 1/10, 1/10⟩
    ∧ ∀ mn, BERT_CONFIGS.lookup mn = none →
        get_pretrained_model mn t (some nl) =
          ModelHandle.pretrainedFetch mn nl := by
  refine ⟨?_, ?_, ?_, ?_⟩
  · simp [get_pretrained_model, BERT_CONFIGS, List.lookup, hnl]
  · simp [get_pretrained_model, BERT_CONFIGS, List.lookup, hnl]
  · simp [get_pretrained_model, BERT_CONFIGS, List.lookup, hnl]
  · intro mn hB
    simp [get_pretrained_model, hB, hnl]

/-- Claim C7 witness: bert-tiny with num_labels 2 gives the exact compact
config, and an unlisted name falls back to the pretrained fetch. -/
theorem c7_witness :
    get_pretrained_model "prajjwal1/bert-tiny" "sst2" (some 2) =
      ModelHandle.fresh ⟨128, 2, 2, 512, 2, 1/10, 1/10⟩
    ∧ get_pretrained_model "bert-base-uncased" "sst2" (some 2) =
      ModelHandle.pretrainedFetch "bert-base-uncased" 2 :=
  ⟨(c7_compact_configs "sst2" 2 (by decide)).1,
   (c7_compact_configs "sst2" 2 (by decide)).2.2.2 "bert-base-uncased"
     (by decide)⟩

/-- Claim C4: BertWrapper.forward unwraps a one-element tuple to its
dictionary, invokes the model with token_type_ids exactly as present in
the batch, returns only the logits field, behaves identically on the
dictionary and tuple shapes, and its result keeps the models last
dimension num_labels in all combinations. -/
theorem c4_forward_shape (w : BertWrapper) (nl : Nat)
    (hshape : ∀ i a tti,
      ((w.model.run i a tti).logits).shape.getLast? = some nl) :
    (∀ x : BatchInput, w.forward x =
       (w.model.run x.toDict.input_ids x.toDict.attention_mask
          x.toDict.token_type_ids).logits)
    ∧ (∀ d : BatchDict,
        w.forward (BatchInput.dict d) = w.forward (BatchInput.tup d))
    ∧ (∀ x : BatchInput, (w.forward x).shape.getLast? = some nl) := by
  refine ⟨?_, ?_, ?_⟩
  · rintro (⟨i, a, tti⟩ | ⟨i, a, tti⟩) <;> cases tti <;> rfl
  · rintro ⟨i, a, tti⟩
    cases tti <;> rfl
  · rintro (⟨i, a, tti⟩ | ⟨i, a, tti⟩) <;> cases tti <;>
      simp [BertWrapper.forward, hshape]

/-- Claim C4 witness: the wrapper over the concrete model returns logits
with last dimension 2 on a dictionary-shaped batch without
token_type_ids. -/
theorem c4_witness :
    (BertWrapper.forward ⟨demoModel⟩
       (BatchInput.dict ⟨⟨[4, 7]⟩, ⟨[4, 7]⟩, none⟩)).shape.getLast? =
      some 2 :=
  (c4_forward_shape ⟨demoModel⟩ 2 (fun _ _ _ => rfl)).2.2 _

/-- Helper: the truncation loop body keeps the split key. -/
theorem truncEntry_fst (n : Nat) (p : String × List RawExample) :
    (truncEntry n p).1 = p.1 := by
  by_cases h : p.1 = "test" <;> simp [truncEntry, h]

/-- Helper: split lookup after the max_samples truncation. -/
theorem get_truncateSplits (dd : DatasetDict) (n : Nat) (s : String) :
    (truncateSplits dd (some n)).get s =
      if s = "test" then dd.get s
      else (dd.get s).map (fun l => l.take (min n l.length)) := by
  rcases dd with ⟨sp⟩
  induction sp with
  | nil => simp [truncateSplits, DatasetDict.get]
  | cons hd tl ih =>
    rcases hd with ⟨k, v⟩
    simp only [truncateSplits, DatasetDict.get, List.map_cons] at ih ⊢
    have hE : truncEntry n (k, v) = (k, (truncEntry n (k, v)).2) :=
      Prod.ext (truncEntry_fst n (k, v)) rfl
    rw [hE, List.lookup_cons, List.lookup_cons]
    by_cases hks : s = k
    · subst hks
      rw [beq_self_eq_true]
      by_cases hts : s = "test"
      · subst hts
        simp [truncEntry]
      · simp [truncEntry, hts]
    · rw [beq_false_of_ne hks]
      exact ih

/-- Helper: inversion of a successful create_test_dataloader call. -/
theorem create_test_dataloader_ok_inv (m : GLUEDataManager)
    (td : Option (List RawExample)) (dl : TestDL) :
    m.create_test_dataloader td = TestDLResult.ok dl →
    ∃ dls tf data,
      m.dls = some dls
      ∧ resolveTestData m td = Except.ok data
      ∧ text_fields.lookup m.task_name = some tf
      ∧ extractAll tf data = some dl.texts
      ∧ dl = { pipeline := dls, texts := dl.texts,
               labels := List.replicate dl.texts.length 0 } := by
  intro h
  cases hdls : m.dls with
  | none => simp [GLUEDataManager.create_test_dataloader, hdls] at h
  | some dls =>
    cases hr : resolveTestData m td with
    | error e =>
      cases e <;>
        simp [GLUEDataManager.create_test_dataloader, hdls, hr] at h
    | ok data =>
      cases htf : text_fields.lookup m.task_name with
      | none =>
        simp [GLUEDataManager.create_test_dataloader, hdls, hr, htf] at h
      | some tf =>
        cases hmm : extractAll tf data with
        | none =>
          simp [GLUEDataManager.create_test_dataloader, hdls, hr, htf,
            hmm] at h
        | some tts =>
          simp [GLUEDataManager.create_test_dataloader, hdls, hr, htf,
            hmm] at h
          subst h
          exact ⟨dls, tf, data, rfl, rfl, rfl, hmm, rfl⟩

/-- Helper: with training DataLoaders present, create_test_dataloader never
reports the precedence error. -/
theorem create_test_dataloader_ne_precedence (m : GLUEDataManager) (d : DLS)
    (hd : m.dls = some d) (td : Option (List RawExample)) :
    m.create_test_dataloader td ≠ TestDLResult.precedence := by
  cases hr : resolveTestData m td with
  | error e =>
    cases e <;> simp [GLUEDataManager.create_test_dataloader, hd, hr]
  | ok data =>
    cases htf : text_fields.lookup m.task_name with
    | none => simp [GLUEDataManager.create_test_dataloader, hd, hr, htf]
    | some tf =>
      cases hmm : extractAll tf data with
      | none =>
        simp [GLUEDataManager.create_test_dataloader, hd, hr, htf, hmm]
      | some tts =>
        simp [GLUEDataManager.create_test_dataloader, hd, hr, htf, hmm]

/-- Helper: a successful create_dataloaders stores the returned DataLoaders
on the manager it returns. -/
theorem create_dataloaders_dls (m : GLUEDataManager)
    (c : Option DatasetDict) (f : DatasetDict) (ms : Option Nat)
    (m2 : GLUEDataManager) (d : DLS) :
    m.create_dataloaders c f ms = some (m2, d) → m2.dls = some d := by
  intro h
  simp only [GLUEDataManager.create_dataloaders] at h
  split at h <;>
  · simp only [Option.bind_eq_bind', Option.bind_eq_some',
      Option.some.injEq, Prod.mk.injEq] at h
    obtain ⟨dd, hdd, r, hp, hr⟩ := h
    obtain ⟨tt, tl2, vt, vl⟩ := r
    obtain ⟨h1, h2⟩ := hr
    subst h1
    subst h2
    rfl

/-- Claim C1: text extraction respects the task descriptor arity on every
path.  For mrpc and rte the extracted entry is exactly the ordered pair of
the two field values and never a bare string; for sst2 it is exactly the
bare string of the single field and never a tuple; and the train,
validation and test paths all obtain their texts through this one
extraction over the task descriptor. -/
theorem c1_extraction_arity :
    (∀ t, (t = "mrpc" ∨ t = "rte") → ∀ tf, text_fields.lookup t = some tf →
      (∀ item v1 v2, item.get "sentence1" = some v1 →
        item.get "sentence2" = some v2 →
        extractText tf item = some (TextEntry.pair v1 v2))
      ∧ (∀ item e, extractText tf item = some e →
          ∃ v1 v2, e = TextEntry.pair v1 v2))
    ∧ (∀ tf, text_fields.lookup "sst2" = some tf →
      (∀ item v, item.get "sentence" = some v →
        extractText tf item = some (TextEntry.single v))
      ∧ (∀ item e, extractText tf item = some e →
          ∃ v, e = TextEntry.single v))
    ∧ (∀ m dd r, GLUEDataManager.prepare_fastai_data m dd = some r →
        ∃ tf train val, text_fields.lookup m.task_name = some tf
          ∧ dd.get "train" = some train
          ∧ dd.get "validation" = some val
          ∧ extractAll tf train = some r.1
          ∧ extractAll tf val = some r.2.2.1)
    ∧ (∀ m td dl, GLUEDataManager.create_test_dataloader m td =
          TestDLResult.ok dl →
        ∃ tf data, text_fields.lookup m.task_name = some tf
          ∧ resolveTestData m td = Except.ok data
          ∧ extractAll tf data = some dl.texts) := by
  refine ⟨?_, ?_, ?_, ?_⟩
  · intro t ht tf htf
    have hv : tf = ("sentence1", some "sentence2") := by
      rcases ht with rfl | rfl
      · have hv2 : text_fields.lookup "mrpc" =
            some ("sentence1", some "sentence2") := by decide
        rw [hv2] at htf
        exact (Option.some.inj htf).symm
      · have hv2 : text_fields.lookup "rte" =
            some ("sentence1", some "sentence2") := by decide
        rw [hv2] at htf
        exact (Option.some.inj htf).symm
    subst hv
    constructor
    · intro item v1 v2 h1 h2
      simp [extractText, h1, h2]
    · intro item e he
      cases hg1 : item.get "sentence1" with
      | none => simp [extractText, hg1] at he
      | some v1 =>
        cases hg2 : item.get "sentence2" with
        | none => simp [extractText, hg1, hg2] at he
        | some v2 =>
          simp [extractText, hg1, hg2] at he
          exact ⟨v1, v2, he.symm⟩
  · intro tf htf
    have hv : tf = ("sentence", none) := by
      have hv2 : text_fields.lookup "sst2" = some ("sentence", none) := by
        decide
      rw [hv2] at htf
      exact (Option.some.inj htf).symm
    subst hv
    constructor
    · intro item v h1
      simp [extractText, h1]
    · intro item e he
      cases hg1 : item.get "sentence" with
      | none => simp [extractText, hg1] at he
      | some v =>
        simp [extractText, hg1] at he
        exact ⟨v, he.symm⟩
  · intro m dd r h
    simp only [GLUEDataManager.prepare_fastai_data, Option.bind_eq_bind',
      Option.bind_eq_some', Option.some.injEq] at h
    obtain ⟨tf, htf, train, htrain, val, hval, tt, htt, vt, hvt, hr⟩ := h
    subst hr
    exact ⟨tf, train, val, htf, htrain, hval, htt, hvt⟩
  · intro m td dl h
    obtain ⟨dls, tf, data, hdls, hr, htf, hmap, hdl⟩ :=
      create_test_dataloader_ok_inv m td dl h
    exact ⟨tf, data, htf, hr, hmap⟩

/-- Claim C1 witness: the mrpc example of the end-to-end scenario extracts
to the ordered pair of both fields. -/
theorem c1_witness :
    extractText ("sentence1", some "sentence2") mrpcItem =
      some (TextEntry.pair "A man is playing guitar."
        "A person plays a guitar.") :=
  (c1_extraction_arity.1 "mrpc" (Or.inl rfl)
    ("sentence1", some "sentence2") (by decide)).1 mrpcItem
    "A man is playing guitar." "A person plays a guitar."
    (by decide) (by decide)

/-- Claim C2: calling create_test_dataloader before create_dataloaders has
ever run always reports the precedence error (a manager fresh from init
has no stored DataLoaders and load_datasets never stores any), and after a
successful create_dataloaders it never does. -/
theorem c2_precedence_order (m : GLUEDataManager) :
    (m.dls = none →
      ∀ td, m.create_test_dataloader td = TestDLResult.precedence)
    ∧ (∀ t mn ml bs vb cd m0,
        GLUEDataManager.init t mn ml bs vb cd = Except.ok m0 →
        m0.dls = none)
    ∧ (∀ c f ms, (m.load_datasets c f ms).mgr.dls = m.dls)
    ∧ (∀ c f ms m2 d, m.create_dataloaders c f ms = some (m2, d) →
        ∀ td, m2.create_test_dataloader td ≠ TestDLResult.precedence) := by
  refine ⟨?_, ?_, ?_, ?_⟩
  · intro h td
    simp [GLUEDataManager.create_test_dataloader, h]
  · intro t mn ml bs vb cd m0 h
    by_cases hm : lowerStr t ∈ ["sst2", "mrpc", "rte"]
    · simp [GLUEDataManager.init, hm] at h
      subst h
      rfl
    · simp [GLUEDataManager.init, hm] at h
  · intro c f ms
    rfl
  · intro c f ms m2 d h td
    exact create_test_dataloader_ne_precedence m2 d
      (create_dataloaders_dls m c f ms m2 d h) td

/-- Claim C2 witness: a fresh manager reports the precedence error; the
manager returned by a successful create_dataloaders call does not. -/
theorem c2_witness :
    mgrBase.create_test_dataloader none = TestDLResult.precedence
    ∧ m2C.create_test_dataloader none ≠ TestDLResult.precedence :=
  ⟨(c2_precedence_order mgrBase).1 rfl none,
   (c2_precedence_order mgrBase).2.2.2 (some ddBig) ddBig none m2C dls2C
     (by decide) none⟩

/-- Claim C3: load_datasets with max_samples n replaces every non-test
split by its prefix of min n length examples (so its length is at most n
and at most the original length, in original order) and leaves the test
split untouched. -/
theorem c3_max_samples_truncation (m : GLUEDataManager)
    (custom_datasets : Option DatasetDict) (fetched : DatasetDict)
    (n : Nat) :
    (∀ s, s ≠ "test" →
      ((m.load_datasets custom_datasets fetched (some n)).returned).get s =
        ((pickBase custom_datasets fetched).get s).map
          (fun l => l.take (min n l.length)))
    ∧ ((m.load_datasets custom_datasets fetched (some n)).returned).get
        "test" = (pickBase custom_datasets fetched).get "test"
    ∧ (∀ s l l2, s ≠ "test" →
        (pickBase custom_datasets fetched).get s = some l →
        ((m.load_datasets custom_datasets fetched (some n)).returned).get s
          = some l2 →
        l2 = l.take (min n l.length) ∧ l2.length ≤ n
          ∧ l2.length ≤ l.length) := by
  have hret : (m.load_datasets custom_datasets fetched (some n)).returned =
      truncateSplits (pickBase custom_datasets fetched) (some n) := rfl
  refine ⟨?_, ?_, ?_⟩
  · intro s hs
    rw [hret, get_truncateSplits, if_neg hs]
  · rw [hret, get_truncateSplits, if_pos rfl]
  · intro s l l2 hs hl hl2
    rw [hret, get_truncateSplits, if_neg hs, hl] at hl2
    have h2 : l.take (min n l.length) = l2 := by
      simpa using hl2
    refine ⟨h2.symm, ?_, ?_⟩
    · rw [← h2, List.length_take]
      omega
    · rw [← h2, List.length_take]
      omega

/-- Claim C3 witness: truncating ddBig to one sample leaves the first train
example only, within both bounds. -/
theorem c3_witness :
    ([itemA] : List RawExample) =
      [itemA, itemB].take (min 1 [itemA, itemB].length)
    ∧ ([itemA] : List RawExample).length ≤ 1
    ∧ ([itemA] : List RawExample).length ≤ [itemA, itemB].length :=
  (c3_max_samples_truncation mgrBase (some ddBig) ddBig 1).2.2 "train"
    [itemA, itemB] [itemA] (by decide) (by decide) (by decide)

/-- Claim C8: every row of the constructed test frame carries the
placeholder label 0 (the first category), and the test batch stream is
produced from the stored training pipeline self.dls. -/
theorem c8_test_labels_pipeline (m : GLUEDataManager)
    (td : Option (List RawExample)) (dl : TestDL) :
    m.create_test_dataloader td = TestDLResult.ok dl →
    dl.labels = List.replicate dl.texts.length 0
    ∧ (∀ x ∈ dl.labels, x = 0)
    ∧ m.dls = some dl.pipeline := by
  intro h
  obtain ⟨dls, tf, data, hdls, hr, htf, hmap, hdl⟩ :=
    create_test_dataloader_ok_inv m td dl h
  have h1 : dl.labels = List.replicate dl.texts.length 0 := by
    rw [hdl]
  refine ⟨h1, ?_, ?_⟩
  · intro x hx
    rw [h1] at hx
    exact List.eq_of_mem_replicate hx
  · rw [hdl]
    exact hdls

/-- Claim C8 witness: the concrete test DataLoader built over m2C has all
labels 0 and reuses the stored training pipeline. -/
theorem c8_witness :
    dlTestC.labels = List.replicate dlTestC.texts.length 0
    ∧ (∀ x ∈ dlTestC.labels, x = 0)
    ∧ m2C.dls = some dlTestC.pipeline :=
  c8_test_labels_pipeline m2C none dlTestC (by decide)

/-- Claim C9: with custom_datasets and max_samples both supplied, the
callers dataset object is reassigned in place: after the call it holds the
truncated dictionary, so whenever truncation shrinks a split the caller
observes a value different from the one passed in. -/
theorem c9_custom_datasets_mutated (m : GLUEDataManager)
    (dd fetched : DatasetDict) (n : Nat) :
    (m.load_datasets (some dd) fetched (some n)).customAfter =
      some (truncateSplits dd (some n))
    ∧ (∀ train, dd.get "train" = some train → n < train.length →
        (m.load_datasets (some dd) fetched (some n)).customAfter ≠
          some dd) := by
  refine ⟨rfl, ?_⟩
  intro train htr hlt heq
  have hdd : truncateSplits dd (some n) = dd := by
    have h0 : (m.load_datasets (some dd) fetched (some n)).customAfter =
        some (truncateSplits dd (some n)) := rfl
    rw [h0] at heq
    exact Option.some.inj heq
  have hget := get_truncateSplits dd n "train"
  rw [hdd, htr, if_neg (by decide : ("train" : String) ≠ "test")] at hget
  have h2 : train = train.take (min n train.length) := by
    simpa using hget
  have h3 := congrArg List.length h2
  simp only [List.length_take] at h3
  omega

/-- Claim C9 witness: truncating ddBig through the caller-supplied argument
changes the value the caller holds afterwards. -/
theorem c9_witness :
    (mgrBase.load_datasets (some ddBig) ddBig (some 1)).customAfter ≠
      some ddBig :=
  (c9_custom_datasets_mutated mgrBase ddBig ddBig 1).2 [itemA, itemB]
    (by decide) (by decide)

/-- Claim C10 counterexample: with a loaded test split that is present but
empty, an empty explicit test_data falls back to it and produces an empty
batch stream, contradicting the claim that an empty explicit test_data
never produces an empty batch stream. -/
theorem c10_counterexample :
    GLUEDataManager.create_test_dataloader mgr10 (some []) =
      TestDLResult.ok ⟨dls2C, [], []⟩ := by decide

/-- Claim C10 (amended): a falsy supplied test_data (absent or empty) makes
create_test_dataloader fall back to the loaded test split; the no-test-data
error is raised exactly when that fallback is absent, and a truthy supplied
test_data is used directly.  A present but empty loaded test split yields
an empty batch stream, not an error. -/
theorem c10_falsy_testdata_fallback (m : GLUEDataManager) (dls : DLS)
    (dd : DatasetDict) (td : Option (List RawExample))
    (hdls : m.dls = some dls) (hdd : m.datasets = some dd) :
    ((td = none ∨ td = some []) →
      resolveTestData m td =
        match dd.get "test" with
        | none => Except.error GlueError.noTestData
        | some t => Except.ok t)
    ∧ ((td = none ∨ td = some []) →
      (m.create_test_dataloader td = TestDLResult.noTestData ↔
        dd.get "test" = none))
    ∧ (∀ l, td = some l → l ≠ [] →
        resolveTestData m td = Except.ok l) := by
  have hres : ∀ td2, (td2 = none ∨ td2 = some ([] : List RawExample)) →
      resolveTestData m td2 =
        match dd.get "test" with
        | none => Except.error GlueError.noTestData
        | some t => Except.ok t := by
    rintro td2 (rfl | rfl) <;> simp [resolveTestData, hdd]
  refine ⟨hres td, ?_, ?_⟩
  · intro h
    have hr := hres td h
    cases hg : dd.get "test" with
    | none =>
      rw [hg] at hr
      simp [GLUEDataManager.create_test_dataloader, hdls, hr, hg]
    | some t =>
      rw [hg] at hr
      cases htf : text_fields.lookup m.task_name with
      | none =>
        simp [GLUEDataManager.create_test_dataloader, hdls, hr, htf, hg]
      | some tf =>
        cases hmm : extractAll tf t with
        | none =>
          simp [GLUEDataManager.create_test_dataloader, hdls, hr, htf,
            hmm, hg]
        | some tts =>
          simp [GLUEDataManager.create_test_dataloader, hdls, hr, htf,
            hmm, hg]
  · intro l hl hne
    subst hl
    cases l with
    | nil => exact absurd rfl hne
    | cons a as => simp [resolveTestData]

/-- Claim C10 witness: over the manager with a present but empty loaded
test split and an empty explicit test_data, the no-test-data error is not
raised, matching the present fallback. -/
theorem c10_witness :
    GLUEDataManager.create_test_dataloader mgr10 (some []) =
        TestDLResult.noTestData ↔
      DatasetDict.get ⟨[("test", [])]⟩ "test" = none :=
  (c10_falsy_testdata_fallback mgr10 dls2C ⟨[("test", [])]⟩ (some [])
    rfl rfl).2.1 (Or.inr rfl)
